import Mathlib

set_option linter.unusedVariables false

/-!
Verification development for the microgrid digital twin repository.

The dispatch optimizer (`src/optimizer.py`), the cycle orchestrator
(`src/main.py`) and the CSV physical-state model
(`src/modelica_interface.py`) are shallowly embedded below.  Scalar
quantities that the Python code holds in floats are idealized as exact
rationals (optimizer arithmetic) or reals (the physical model, whose
solar/load patterns use `sin`/`exp`).  The SciPy SLSQP solver is an
external black box: its outcome is passed in explicitly as an
`Option (List ℚ)` argument, and a reported success is modelled by the
predicate `slsqpSuccess`, which states exactly what SciPy guarantees of
a successful SLSQP result: the returned point respects the `Bounds`
box and every inequality constraint that the Python code registered
(tolerance idealized to zero).

One structural defect of the source is load-bearing and is modelled
explicitly: the stray trajectory loop at optimizer.py lines 64-68 reads
`x[i]`, but `x` is bound only inside the inner closures, so every call
of `multi_objective_optimization` with a nonempty horizon raises
`NameError` at line 67, before the solver is reached.  The dataflow of
lines 70-110 (split the SLSQP point, or fall back to the greedy) is
therefore dead code; it is embedded as `multi_objective_optimization`
and used for the success-conditional claims, while the call-level
behavior, exceptions included, is `multi_objective_optimization_call`.
-/

namespace Microgrid

/-! ## Optimizer configuration constants (optimizer.py, __init__, lines 6-17) -/

def battery_min_soc : ℚ := 20

def battery_max_soc : ℚ := 95

def battery_capacity : ℚ := 10

def battery_max_power : ℚ := 5

def generator_max_power : ℚ := 8

def generator_min_power : ℚ := 1

/-! ## Fallback greedy optimization (optimizer.py, simple_optimization, lines 112-146) -/

/-- Body of one iteration of the `for i in range(n_periods)` loop of
`simple_optimization`: from the running `current_soc` and the period's
solar and load forecasts, produce the `(battery_power, generator_power)`
pair the Python code stores at index `i`. -/
def simpleStep (current_soc solar load : ℚ) : ℚ × ℚ :=
  let imbalance := load - solar
  if 0 < imbalance then
    let available_battery := min battery_max_power
      ((current_soc / 100 * battery_capacity -
        battery_min_soc / 100 * battery_capacity) * 4)
    let battery_discharge := min imbalance available_battery
    let imbalance' := imbalance - battery_discharge
    let generator := if 0 < imbalance' then min imbalance' generator_max_power else 0
    (battery_discharge, generator)
  else
    let available_charging := min battery_max_power
      ((battery_max_soc / 100 * battery_capacity -
        current_soc / 100 * battery_capacity) * 4)
    let battery_charge := min (-imbalance) available_charging
    (-battery_charge, 0)

/-- SOC update at the end of each loop iteration of `simple_optimization`
(line 144): `current_soc -= battery_power[i] / battery_capacity * 100 / 4`. -/
def socNext (current_soc battery_power : ℚ) : ℚ :=
  current_soc - battery_power / battery_capacity * 100 / 4

/-- Recursion over the zipped (solar, load) forecast pairs threading the
running SOC, producing the two schedule lists of `simple_optimization`. -/
def simpleRec : ℚ → List (ℚ × ℚ) → List ℚ × List ℚ
  | _, [] => ([], [])
  | current_soc, p :: rest =>
      let bg := simpleStep current_soc p.1 p.2
      let tail := simpleRec (socNext current_soc bg.1) rest
      (bg.1 :: tail.1, bg.2 :: tail.2)

/-- Fallback optimization method (`simple_optimization`).  The
`electricity_prices` argument is accepted, as in the source, but never
read by the body. -/
def simple_optimization (solar_forecast load_forecast : List ℚ)
    (current_soc : ℚ) (electricity_prices : List ℚ) : List ℚ × List ℚ :=
  simpleRec current_soc (solar_forecast.zip load_forecast)

/-! ## SOC trajectory obtained by integrating a battery-power schedule

The spec's integration rule (−battery_power per period, 15-minute step,
percent scale) coincides with the loop update of `simple_optimization`
and, after the kWh-to-percent change of scale, with the running value
inside `soc_constraint`. -/

/-- State-of-charge values (percent) at the period boundaries reached by
integrating a battery-power schedule from a starting SOC. -/
def socTraj : ℚ → List ℚ → List ℚ
  | _, [] => []
  | current_soc, b :: rest =>
      socNext current_soc b :: socTraj (socNext current_soc b) rest

/-! ## SLSQP constraint functions (optimizer.py, lines 76-95) -/

/-- Loop of `soc_constraint` (lines 81-86): thread the running SOC in kWh
and emit, per period, the slack against the minimum and then against the
maximum SOC. -/
def socConstraintGo : ℚ → List ℚ → List ℚ
  | _, [] => []
  | soc, b :: rest =>
      let soc' := soc - b / 4
      (soc' - battery_min_soc / 100 * battery_capacity) ::
      (battery_max_soc / 100 * battery_capacity - soc') ::
      socConstraintGo soc' rest

/-- The `soc_constraint` inequality-constraint function registered with
SLSQP, applied to the battery-power prefix of the decision vector. -/
def soc_constraint (current_soc : ℚ) (battery_powers : List ℚ) : List ℚ :=
  socConstraintGo (current_soc / 100 * battery_capacity) battery_powers

/-- The `generator_constraint` inequality-constraint function (lines
89-90): `x[n_periods:] - generator_min_power`, one entry per period,
unconditionally. -/
def generator_constraint (n_periods : ℕ) (x : List ℚ) : List ℚ :=
  (x.drop n_periods).map (fun g => g - generator_min_power)

/-- Model of `result.success` for the SLSQP call (lines 100-104): the
returned decision vector has one battery and one generator entry per
period, lies inside the `Bounds` box of lines 71-74, and satisfies both
registered inequality-constraint families (lines 92-95), with the solver
tolerance idealized to zero. -/
def slsqpSuccess (n_periods : ℕ) (current_soc : ℚ) (x : List ℚ) : Prop :=
  x.length = 2 * n_periods ∧
  (∀ b ∈ x.take n_periods, -battery_max_power ≤ b ∧ b ≤ battery_max_power) ∧
  (∀ g ∈ x.drop n_periods, 0 ≤ g ∧ g ≤ generator_max_power) ∧
  (∀ c ∈ soc_constraint current_soc (x.take n_periods), 0 ≤ c) ∧
  (∀ c ∈ generator_constraint n_periods x, 0 ≤ c)

/-- Schedule dataflow of `multi_objective_optimization` (lines 70-110),
the value the body computes once past line 68.  The outcome of the SciPy
`minimize` call is supplied as `solverResult` (`some x` when
`result.success` holds with decision vector `x`, `none` otherwise); on
solver failure lines 108-110 fall back internally to
`simple_optimization`.  In the program as written this dataflow is
reachable only for an empty horizon: the stray trajectory loop at lines
64-68 reads the unbound name `x` and raises `NameError` first on every
nonempty call (see `multi_objective_optimization_call`), so lines 70-110
are dead code and the success-conditional claims settled against this
dataflow are vacuous over the program's reachable executions. -/
def multi_objective_optimization (solar_forecast load_forecast : List ℚ)
    (current_soc : ℚ) (electricity_prices : List ℚ)
    (solverResult : Option (List ℚ)) : List ℚ × List ℚ :=
  match solverResult with
  | some x => (x.take solar_forecast.length, x.drop solar_forecast.length)
  | none => simple_optimization solar_forecast load_forecast current_soc electricity_prices

/-- Call-level model of `multi_objective_optimization` (lines 19-110):
the stray trajectory loop at lines 64-68 reads `x[i]` with `x` bound
only inside the inner closures, so every call with a nonempty horizon
raises `NameError: name x is not defined` at line 67, before
`scipy.minimize` is reached (`Except.error ()` here).  Only the
degenerate empty-horizon call proceeds to the solve-and-return dataflow
of `multi_objective_optimization`. -/
def multi_objective_optimization_call (solar_forecast load_forecast : List ℚ)
    (current_soc : ℚ) (electricity_prices : List ℚ)
    (solverResult : Option (List ℚ)) : Except Unit (List ℚ × List ℚ) :=
  if solar_forecast.length = 0 then
    Except.ok (multi_objective_optimization solar_forecast load_forecast
      current_soc electricity_prices solverResult)
  else
    Except.error ()

/-! ## Real-time control fallback path (optimizer.py, lines 148-166) -/

/-- First-step extraction of `real_time_control` (lines 165-166):
`battery_power[0], generator_power[0]`, which in Python raises
`IndexError` on empty schedules — modelled with `Option`. -/
def firstSetpoints (schedule : List ℚ × List ℚ) : Option (ℚ × ℚ) :=
  match schedule.1.head?, schedule.2.head? with
  | some b, some g => some (b, g)
  | _, _ => none

/-- Fallback path `real_time_control` (lines 148-166): truncate the
forecast sequences to the first four periods, re-enter
`multi_objective_optimization` on them (line 161) — which raises the
stray-loop `NameError` whenever the truncated horizon is nonempty — and
return the first-period actions, an `IndexError` on empty schedules
(the `firstSetpoints` `none` case).  The `current_solar` and
`current_load` locals of lines 152-153 are read from the state but
never used afterwards. -/
def real_time_control (current_soc : ℚ)
    (forecast_solar forecast_load forecast_prices : List ℚ)
    (solverResult : Option (List ℚ)) : Except Unit (ℚ × ℚ) :=
  match multi_objective_optimization_call (forecast_solar.take 4)
      (forecast_load.take 4) current_soc (forecast_prices.take 4)
      solverResult with
  | Except.error e => Except.error e
  | Except.ok schedule =>
      match firstSetpoints schedule with
      | some p => Except.ok p
      | none => Except.error ()

/-- Setpoint selection of `run_optimization_cycle` (main.py, lines
67-91): the `try` block calls the optimizer and scales the first-period
setpoints from kW to W; on any exception the handler invokes
`real_time_control` and scales its result.  An exception raised inside
the handler itself escapes the cycle uncaught, as in the source. -/
def cycle_setpoints (solar_forecast load_forecast price_forecast : List ℚ)
    (current_soc : ℚ) (solverResult retryResult : Option (List ℚ)) :
    Except Unit (ℚ × ℚ) :=
  let tryBlock :=
    match multi_objective_optimization_call solar_forecast load_forecast
        current_soc price_forecast solverResult with
    | Except.error e => Except.error e
    | Except.ok schedule =>
        match firstSetpoints schedule with
        | some p => Except.ok (p.1 * 1000, p.2 * 1000)
        | none => Except.error ()
  match tryBlock with
  | Except.ok p => Except.ok p
  | Except.error _ =>
      match real_time_control current_soc solar_forecast load_forecast
          price_forecast retryResult with
      | Except.ok p => Except.ok (p.1 * 1000, p.2 * 1000)
      | Except.error e => Except.error e

/-! ## Orchestrator configuration (main.py, lines 41-53, 157) -/

/-- Orchestrator configuration dictionary (main.py, lines 41-46). -/
structure Config where
  carbon_cost : ℚ
  battery_min_soc : ℚ
  battery_max_soc : ℚ
  grid_available : Bool
deriving DecidableEq

/-- Initial configuration values (main.py, lines 41-46). -/
def defaultConfig : Config :=
  { carbon_cost := 0.02, battery_min_soc := 20, battery_max_soc := 95,
    grid_available := true }

/-- Sparse keyword arguments accepted by `update_config`; `none` means
the key was not passed. -/
structure ConfigUpdate where
  carbon_cost : Option ℚ := none
  battery_min_soc : Option ℚ := none
  battery_max_soc : Option ℚ := none
  grid_available : Option Bool := none

/-- Configuration update (main.py, lines 48-53): `self.config.update(kwargs)`
merges the supplied keys over the previous values; the body performs no
validation of any kind before mutating. -/
def update_config (config : Config) (kwargs : ConfigUpdate) : Config :=
  { carbon_cost := kwargs.carbon_cost.getD config.carbon_cost,
    battery_min_soc := kwargs.battery_min_soc.getD config.battery_min_soc,
    battery_max_soc := kwargs.battery_max_soc.getD config.battery_max_soc,
    grid_available := kwargs.grid_available.getD config.grid_available }

/-- Configuration effect of `inject_disturbance` (main.py, line 157):
`self.config['grid_available'] = not grid_outage`. -/
def inject_grid_flag (config : Config) (grid_outage : Bool) : Config :=
  { config with grid_available := !grid_outage }

/-- Cached-status effect of `inject_disturbance` (main.py, lines
159-160): on an outage the cached reliability status is overwritten
with the island-mode tag. -/
def inject_reliability_status (grid_outage : Bool) (prev : String) : String :=
  if grid_outage then "Island Mode" else prev

/-- Reliability classification (main.py, lines 139-148).  The dictionary
lookup `state['generator_setpoint']` is modelled with an `Option`,
because the state dictionary returned by `simulate_step` carries no such
key; in that case the Python code raises `KeyError` (`none` here). -/
def check_reliability (config : Config) (grid_power battery_soc : ℚ)
    (generator_setpoint : Option ℚ) : Option String :=
  if grid_power > 5000 then some "Grid Dependent"
  else if battery_soc < config.battery_min_soc + 5 then some "Low Reserve"
  else
    match generator_setpoint with
    | none => none
    | some g => if g > 0 then some "Generator Active" else some "Normal"

/-! ## Physical state model (modelica_interface.py, CSVModelicaInterface) -/

noncomputable section

/-- Physical state dictionary held by `CSVModelicaInterface`
(modelica_interface.py, lines 77-83). -/
structure PhysicalState where
  battery_soc : ℝ
  solar_power : ℝ
  load_power : ℝ
  grid_power : ℝ
  total_cost : ℝ

/-- Initial simulator state (lines 77-83). -/
def initState : PhysicalState :=
  { battery_soc := 50, solar_power := 0, load_power := 800,
    grid_power := 0, total_cost := 0 }

/-- Time-of-day solar pattern (lines 104-105). -/
def solar_pattern (hour : ℕ) : ℝ :=
  max 0 (3000 * Real.sin (Real.pi * ((hour : ℝ) + 6) / 15))

/-- Time-of-day load pattern (line 108). -/
def load_pattern (hour : ℕ) : ℝ :=
  800 + 2000 * Real.exp (-(1 / 2) * (((hour : ℝ) - 19) / 3) ^ 2)

/-- Time-of-use price used by the simulator (lines 114-119). -/
def price_pattern (hour : ℕ) : ℝ :=
  if 8 ≤ hour ∧ hour < 18 then 0.15
  else if 18 ≤ hour ∧ hour < 22 then 0.20
  else 0.12

/-- One simulation step of `CSVModelicaInterface.simulate_step`
(lines 85-133).  The wall-clock hour read from `datetime.now()` is
passed explicitly; setpoints are in watts and `step_size` in seconds,
as in the source. -/
def simulate_step (s : PhysicalState) (hour : ℕ)
    (battery_setpoint generator_setpoint : ℝ) (step_size : ℝ) : PhysicalState :=
  let battery_energy :=
    s.battery_soc / 100 * 10 + battery_setpoint * step_size / 3600 / 1000
  let battery_energy' := max 0 (min 10000 battery_energy)
  let new_soc := battery_energy' / 10
  let solar_power := solar_pattern hour
  let load_power := load_pattern hour
  let grid_power := load_power - solar_power - battery_setpoint - generator_setpoint
  let cost_increment := (max 0 grid_power * price_pattern hour +
    generator_setpoint * 0.25 / 0.35) * step_size / 3600 / 1000
  { battery_soc := new_soc, solar_power := solar_power, load_power := load_power,
    grid_power := grid_power, total_cost := s.total_cost + cost_increment }

/-- State mutation performed by `inject_disturbance` on the simulator's
live state (main.py, lines 155-156): multiplicative scaling of the
cached solar and load powers. -/
def inject_disturbance (s : PhysicalState)
    (solar_reduction load_increase : ℝ) : PhysicalState :=
  { s with solar_power := s.solar_power * (1 - solar_reduction / 100),
           load_power := s.load_power * (1 + load_increase / 100) }

/-- Emissions evaluator (main.py, lines 133-137), with the optimizer's
grid and generator carbon intensities (0.5 and 0.7 kgCO2/kWh).  The
`state['generator_setpoint']` lookup is an `Option` for the same reason
as in `check_reliability`. -/
def calculate_emissions (state : PhysicalState)
    (generator_setpoint : Option ℝ) : Option ℝ :=
  generator_setpoint.map
    (fun g => max 0 state.grid_power * 0.5 / 1000 + g * 0.7 / 1000)

end

/-! ## Invariants of the greedy fallback loop -/

/-- One loop iteration of `simple_optimization` started inside the SOC
operating band keeps the battery power within the rate limit, keeps the
generator power within its capacity, and the updated SOC stays inside
the band. -/
theorem simpleStep_bounds {current_soc solar load bp gp : ℚ}
    (hstep : simpleStep current_soc solar load = (bp, gp))
    (hlo : battery_min_soc ≤ current_soc) (hhi : current_soc ≤ battery_max_soc) :
    (-battery_max_power ≤ bp ∧ bp ≤ battery_max_power) ∧
    (0 ≤ gp ∧ gp ≤ generator_max_power) ∧
    battery_min_soc ≤ socNext current_soc bp ∧
    socNext current_soc bp ≤ battery_max_soc := by
  simp only [simpleStep, min_def, Prod.mk.injEq] at hstep
  simp only [socNext, battery_min_soc, battery_max_soc, battery_capacity,
    battery_max_power, generator_max_power] at *
  split_ifs at hstep <;> obtain ⟨rfl, rfl⟩ := hstep <;>
    exact ⟨⟨by linarith, by linarith⟩, ⟨by linarith, by linarith⟩,
      by linarith, by linarith⟩

/-- Invariant of the whole `simple_optimization` loop: starting inside
the SOC operating band, the produced schedules respect the power bounds,
have one entry per forecast pair, and the integrated SOC trajectory
never leaves the band. -/
theorem simpleRec_inv (ps : List (ℚ × ℚ)) :
    ∀ current_soc : ℚ,
      battery_min_soc ≤ current_soc → current_soc ≤ battery_max_soc →
      (∀ b ∈ (simpleRec current_soc ps).1,
          -battery_max_power ≤ b ∧ b ≤ battery_max_power) ∧
      (∀ g ∈ (simpleRec current_soc ps).2, 0 ≤ g ∧ g ≤ generator_max_power) ∧
      (∀ v ∈ socTraj current_soc (simpleRec current_soc ps).1,
          battery_min_soc ≤ v ∧ v ≤ battery_max_soc) ∧
      (simpleRec current_soc ps).1.length = ps.length ∧
      (simpleRec current_soc ps).2.length = ps.length := by
  induction ps with
  | nil =>
      intro cs _ _
      simp [simpleRec, socTraj]
  | cons p rest ih =>
      intro cs hlo hhi
      rcases hsp : simpleStep cs p.1 p.2 with ⟨bp, gp⟩
      obtain ⟨hbp, hgp, hlo', hhi'⟩ := simpleStep_bounds hsp hlo hhi
      obtain ⟨ih1, ih2, ih3, ih4, ih5⟩ := ih (socNext cs bp) hlo' hhi'
      simp only [simpleRec, hsp, socTraj, List.mem_cons, List.length_cons]
      refine ⟨?_, ?_, ?_, ?_, ?_⟩
      · rintro b (rfl | hmem)
        · exact hbp
        · exact ih1 b hmem
      · rintro g (rfl | hmem)
        · exact hgp
        · exact ih2 g hmem
      · rintro v (rfl | hmem)
        · exact ⟨hlo', hhi'⟩
        · exact ih3 v hmem
      · simp [ih4]
      · simp [ih5]

/-! ## Correspondence between `soc_constraint` and the SOC trajectory -/

/-- When every slack emitted by the `soc_constraint` loop (running SOC in
kWh) is non-negative, the percent-scale SOC trajectory integrated from
ten times the starting kWh value stays inside the configured band. -/
theorem socConstraintGo_spec (bps : List ℚ) :
    ∀ k : ℚ, (∀ c ∈ socConstraintGo k bps, 0 ≤ c) →
      ∀ v ∈ socTraj (10 * k) bps,
        battery_min_soc ≤ v ∧ v ≤ battery_max_soc := by
  induction bps with
  | nil =>
      intro k _ v hv
      simp [socTraj] at hv
  | cons b rest ih =>
      intro k hc
      simp only [socConstraintGo, List.mem_cons] at hc
      have h1 := hc _ (Or.inl rfl)
      have h2 := hc _ (Or.inr (Or.inl rfl))
      have htail : ∀ c ∈ socConstraintGo (k - b / 4) rest, 0 ≤ c :=
        fun c hm => hc c (Or.inr (Or.inr hm))
      intro v hv
      have hrw : socNext (10 * k) b = 10 * (k - b / 4) := by
        simp only [socNext, battery_capacity]; ring
      simp only [socTraj, hrw, List.mem_cons] at hv
      rcases hv with rfl | hv
      · simp only [battery_min_soc, battery_max_soc, battery_capacity] at *
        constructor <;> linarith
      · exact ih (k - b / 4) htail v hv

/-! ## Claim C1 -/

/-- C1: for every solve call that reports success — an SLSQP result
accepted by `result.success`, modelled by `slsqpSuccess`, or the greedy
fallback solve, which always returns — the state-of-charge trajectory
obtained by integrating the returned battery_power schedule from
`current_soc` stays within [battery_min_soc, battery_max_soc] at every
period boundary (the greedy path starting inside the band; solver
tolerance idealized to zero).  In the program as written no SLSQP call
ever reports success — the stray-loop NameError precedes the solver —
so the SLSQP branch is vacuous over reachable executions and the greedy
branch carries the live content. -/
theorem soc_trajectory_stays_in_band
    (solar_forecast load_forecast electricity_prices : List ℚ) (current_soc : ℚ)
    (solverResult : Option (List ℚ))
    (hsucc : ∀ x, solverResult = some x →
      slsqpSuccess solar_forecast.length current_soc x)
    (hlo : battery_min_soc ≤ current_soc) (hhi : current_soc ≤ battery_max_soc) :
    ∀ v ∈ socTraj current_soc (multi_objective_optimization solar_forecast
        load_forecast current_soc electricity_prices solverResult).1,
      battery_min_soc ≤ v ∧ v ≤ battery_max_soc := by
  cases solverResult with
  | none =>
      have h := simpleRec_inv (solar_forecast.zip load_forecast) current_soc hlo hhi
      exact h.2.2.1
  | some x =>
      obtain ⟨hxlen, hbb, hgb, hsc, hgc⟩ := hsucc x rfl
      simp only [soc_constraint] at hsc
      have hspec := socConstraintGo_spec (x.take solar_forecast.length)
        (current_soc / 100 * battery_capacity) hsc
      have hk : 10 * (current_soc / 100 * battery_capacity) = current_soc := by
        simp only [battery_capacity]; ring
      rw [hk] at hspec
      exact hspec

/-- Witness for C1: concrete greedy solve with solar [0], load [10],
SOC 50, the hypotheses holding by computation. -/
theorem soc_trajectory_stays_in_band_witness :
    (battery_min_soc ≤ (50 : ℚ) ∧ (50 : ℚ) ≤ battery_max_soc) ∧
    ∀ v ∈ socTraj 50 (multi_objective_optimization [0] [10] 50 [1] none).1,
      battery_min_soc ≤ v ∧ v ≤ battery_max_soc :=
  ⟨⟨by norm_num [battery_min_soc], by norm_num [battery_max_soc]⟩,
   soc_trajectory_stays_in_band [0] [10] [1] 50 none (fun x h => nomatch h)
     (by norm_num [battery_min_soc]) (by norm_num [battery_max_soc])⟩

/-! ## Claim C2 -/

/-- C2 counterexample: at a valid input — solar [0], load [10], current
SOC 0 percent (inside the PhysicalState SOC range 0-100), prices [1] —
the solve (greedy path, the one also returned by the multi-objective
entry on solver failure) emits battery_power -8 kW, outside
[-battery_max_power, battery_max_power]: the claimed bound fails. -/
theorem schedule_bounds_counterexample :
    ¬ (∀ b ∈ (multi_objective_optimization [0] [10] 0 [1] none).1,
        -battery_max_power ≤ b ∧ b ≤ battery_max_power) := by
  have hlist : (multi_objective_optimization [0] [10] 0 [1] none).1 = [-8] := by
    norm_num [multi_objective_optimization, simple_optimization, simpleRec,
      simpleStep, socNext, battery_min_soc, battery_max_soc, battery_capacity,
      battery_max_power, generator_max_power]
  intro h
  have hb := h (-8) (by rw [hlist]; exact List.mem_singleton.mpr rfl)
  norm_num [battery_max_power] at hb

/-- C2 amended: for equal-length forecasts with the starting SOC inside
[battery_min_soc, battery_max_soc], both solve paths return two
schedules of the forecast length, every battery_power entry lies in
[-battery_max_power, battery_max_power] and every generator_power entry
in [0, generator_max_power] (the SLSQP path under its reported
success). -/
theorem schedule_shape_and_bounds
    (solar_forecast load_forecast electricity_prices : List ℚ) (current_soc : ℚ)
    (solverResult : Option (List ℚ))
    (hsucc : ∀ x, solverResult = some x →
      slsqpSuccess solar_forecast.length current_soc x)
    (hlen : load_forecast.length = solar_forecast.length)
    (hlo : battery_min_soc ≤ current_soc) (hhi : current_soc ≤ battery_max_soc) :
    (multi_objective_optimization solar_forecast load_forecast current_soc
        electricity_prices solverResult).1.length = solar_forecast.length ∧
    (multi_objective_optimization solar_forecast load_forecast current_soc
        electricity_prices solverResult).2.length = solar_forecast.length ∧
    (∀ b ∈ (multi_objective_optimization solar_forecast load_forecast current_soc
        electricity_prices solverResult).1,
      -battery_max_power ≤ b ∧ b ≤ battery_max_power) ∧
    (∀ g ∈ (multi_objective_optimization solar_forecast load_forecast current_soc
        electricity_prices solverResult).2,
      0 ≤ g ∧ g ≤ generator_max_power) := by
  cases solverResult with
  | none =>
      obtain ⟨h1, h2, _, h4, h5⟩ :=
        simpleRec_inv (solar_forecast.zip load_forecast) current_soc hlo hhi
      have hz : (solar_forecast.zip load_forecast).length = solar_forecast.length := by
        simp [hlen]
      refine ⟨?_, ?_, h1, h2⟩
      · simpa [hz] using h4
      · simpa [hz] using h5
  | some x =>
      obtain ⟨hxlen, hbb, hgb, hsc, hgc⟩ := hsucc x rfl
      simp only [multi_objective_optimization]
      refine ⟨?_, ?_, hbb, hgb⟩
      · simp only [List.length_take, hxlen]; omega
      · simp only [List.length_drop, hxlen]; omega

/-- Witness for C2 amended: concrete greedy solve with solar [0],
load [10], SOC 50. -/
theorem schedule_shape_and_bounds_witness :
    (List.length [(10 : ℚ)] = List.length [(0 : ℚ)] ∧
     battery_min_soc ≤ (50 : ℚ) ∧ (50 : ℚ) ≤ battery_max_soc) ∧
    (multi_objective_optimization [0] [10] 50 [1] none).1.length =
      List.length [(0 : ℚ)] ∧
    (multi_objective_optimization [0] [10] 50 [1] none).2.length =
      List.length [(0 : ℚ)] ∧
    (∀ b ∈ (multi_objective_optimization [0] [10] 50 [1] none).1,
      -battery_max_power ≤ b ∧ b ≤ battery_max_power) ∧
    (∀ g ∈ (multi_objective_optimization [0] [10] 50 [1] none).2,
      0 ≤ g ∧ g ≤ generator_max_power) :=
  ⟨⟨rfl, by norm_num [battery_min_soc], by norm_num [battery_max_soc]⟩,
   schedule_shape_and_bounds [0] [10] [1] 50 none (fun x h => nomatch h) rfl
     (by norm_num [battery_min_soc]) (by norm_num [battery_max_soc])⟩

/-! ## Claim C3 -/

/-- C3: in the program as written every nonempty-horizon solve call
fails — the stray-loop NameError of optimizer.py line 67 fires before
the numerical solver runs — and the Dispatch Optimizer substitutes no
relaxed or alternative computation: no schedule of any kind is returned
(the internal greedy fallback of lines 108-110 is dead code).  The
failure propagates to the Orchestrator, whose exception handler then
invokes the fallback controller `real_time_control`, and the cycle's
outcome is exactly that invocation's outcome. -/
theorem optimizer_failure_propagates_to_fallback
    (solar_forecast load_forecast price_forecast : List ℚ) (current_soc : ℚ)
    (solverResult retryResult : Option (List ℚ))
    (h : solar_forecast ≠ []) :
    multi_objective_optimization_call solar_forecast load_forecast current_soc
      price_forecast solverResult = Except.error () ∧
    cycle_setpoints solar_forecast load_forecast price_forecast current_soc
      solverResult retryResult =
      (match real_time_control current_soc solar_forecast load_forecast
          price_forecast retryResult with
        | Except.ok p => Except.ok (p.1 * 1000, p.2 * 1000)
        | Except.error e => Except.error e) := by
  have hlen : ¬ solar_forecast.length = 0 := by
    intro hl
    exact h (List.length_eq_zero.mp hl)
  constructor
  · simp [multi_objective_optimization_call, hlen]
  · simp [cycle_setpoints, multi_objective_optimization_call, hlen]

/-- Witness for C3: the concrete nonempty-horizon call, whose solve
fails before the solver and whose cycle outcome is the fallback
invocation's outcome. -/
theorem optimizer_failure_propagates_to_fallback_witness :
    ([(0 : ℚ)] ≠ []) ∧
    (multi_objective_optimization_call [0] [10] 50 [1] none =
        Except.error () ∧
      cycle_setpoints [0] [10] [1] 50 none none =
        (match real_time_control 50 [0] [10] [1] none with
          | Except.ok p => Except.ok (p.1 * 1000, p.2 * 1000)
          | Except.error e => Except.error e)) :=
  ⟨by simp,
   optimizer_failure_propagates_to_fallback [0] [10] [1] 50 none none
     (by simp)⟩

/-! ## Claim C4 -/

/-- C4 counterexample: at the concrete post-failure invocation (SOC 50,
one-period forecasts) the fallback controller does not return
setpoints: `real_time_control` re-enters `multi_objective_optimization`
on the truncated forecast, the stray-loop NameError fires again, and
the call fails — refuting "never fails" (and the failure arises inside
the re-entered iterative-solver path, refuting "uses no iterative
solver"). -/
theorem fallback_always_raises_counterexample :
    real_time_control 50 [0] [10] [1] none = Except.error () := by
  simp [real_time_control, multi_objective_optimization_call]

/-- C4 amended: the fallback controller invoked on optimizer failure
always fails and never returns setpoints: for every input and every
solver outcome, `real_time_control` re-enters the optimizer, where on a
nonempty truncated forecast the stray-loop NameError fires before the
numerical solver, and on an empty one the first-element extraction
fails instead.  It is deterministic only in failing identically on
identical inputs, and it is not the solver-free greedy arithmetic the
spec describes. -/
theorem fallback_never_returns (current_soc : ℚ)
    (forecast_solar forecast_load forecast_prices : List ℚ)
    (solverResult : Option (List ℚ)) :
    real_time_control current_soc forecast_solar forecast_load
      forecast_prices solverResult = Except.error () := by
  rcases forecast_solar with _ | ⟨a, fs⟩
  · rcases solverResult with _ | x
    · simp [real_time_control, multi_objective_optimization_call,
        multi_objective_optimization, simple_optimization, simpleRec,
        firstSetpoints]
    · simp [real_time_control, multi_objective_optimization_call,
        multi_objective_optimization, firstSetpoints]
  · simp [real_time_control, multi_objective_optimization_call]

/-! ## Claim C10 -/

/-- C10: whenever the SLSQP multi-objective solve reports success, every
generator_power entry of the returned schedule is at least
generator_min_power (1 kW), hence strictly positive: the coded
`generator_constraint` applies to every period unconditionally, so a
successful optimizer-driven schedule never sets the generator to zero
in any period.  (In the code as written no SLSQP call reports success —
the stray-loop NameError precedes the solver — so this holds vacuously
over reachable executions; the constraint content is settled against
the coded dataflow.) -/
theorem generator_min_power_on_success
    (solar_forecast load_forecast electricity_prices : List ℚ)
    (current_soc : ℚ) (x : List ℚ)
    (hsucc : slsqpSuccess solar_forecast.length current_soc x) :
    ∀ g ∈ (multi_objective_optimization solar_forecast load_forecast current_soc
        electricity_prices (some x)).2,
      generator_min_power ≤ g ∧ 0 < g := by
  obtain ⟨hxlen, hbb, hgb, hsc, hgc⟩ := hsucc
  intro g hg
  simp only [multi_objective_optimization] at hg
  have hslack := hgc (g - generator_min_power) (by
    simp only [generator_constraint, List.mem_map]
    exact ⟨g, hg, rfl⟩)
  have h1 : generator_min_power ≤ g := by linarith
  refine ⟨h1, ?_⟩
  have : (0 : ℚ) < generator_min_power := by norm_num [generator_min_power]
  linarith

/-- Witness for C10: a concrete feasible successful solver point at
horizon 1. -/
theorem generator_min_power_on_success_witness :
    slsqpSuccess (List.length [(0 : ℚ)]) 50 [0, 1] ∧
    ∀ g ∈ (multi_objective_optimization [0] [10] 50 [1] (some [0, 1])).2,
      generator_min_power ≤ g ∧ 0 < g := by
  have hs : slsqpSuccess (List.length [(0 : ℚ)]) 50 [0, 1] := by
    norm_num [slsqpSuccess, soc_constraint, socConstraintGo, generator_constraint,
      battery_min_soc, battery_max_soc, battery_capacity, battery_max_power,
      generator_max_power, generator_min_power]
  exact ⟨hs, generator_min_power_on_success [0] [10] [1] 50 [0, 1] hs⟩

/-! ## Claim C6 -/

/-- C6 counterexample: after the grid-outage injection (grid_available
toggled off), the classification that the next cycle computes on a
concrete realized state — grid power 0, SOC 50, generator setpoint 0 —
is "Normal", not an island-mode tag: the priority list of
`check_reliability` contains no outage check at all (and never reads
the grid-availability flag). -/
theorem reliability_after_outage_counterexample :
    check_reliability (inject_grid_flag defaultConfig true) 0 50 (some 0) =
      some "Normal" ∧ "Normal" ≠ "Island Mode" := by
  refine ⟨?_, by decide⟩
  norm_num [check_reliability, inject_grid_flag, defaultConfig]

/-- C6 amended: `inject_disturbance(grid_outage=True)` writes the
island-mode tag directly into the cached reliability status, but the
classification recomputed by the next cycle's `check_reliability` is a
priority list over grid power, battery SOC and generator setpoint with
no outage branch: whatever tag it produces is never "Island Mode". -/
theorem check_reliability_never_island
    (config : Config) (grid_power battery_soc : ℚ)
    (generator_setpoint : Option ℚ) (r : String)
    (h : check_reliability config grid_power battery_soc generator_setpoint =
      some r) :
    inject_reliability_status true "Normal" = "Island Mode" ∧
    r ≠ "Island Mode" := by
  refine ⟨rfl, ?_⟩
  have hcases : r = "Grid Dependent" ∨ r = "Low Reserve" ∨
      r = "Generator Active" ∨ r = "Normal" := by
    rcases generator_setpoint with _ | g
    · dsimp only [check_reliability] at h
      split_ifs at h <;> simp_all
    · dsimp only [check_reliability] at h
      split_ifs at h <;> simp_all
  rcases hcases with rfl | rfl | rfl | rfl <;> decide

/-- Witness for C6 amended: the classifier output on a concrete
post-outage state is "Normal". -/
theorem check_reliability_never_island_witness :
    check_reliability (inject_grid_flag defaultConfig true) 0 50 (some 0) =
      some "Normal" ∧
    (inject_reliability_status true "Normal" = "Island Mode" ∧
      "Normal" ≠ "Island Mode") :=
  ⟨by norm_num [check_reliability, inject_grid_flag, defaultConfig],
   check_reliability_never_island (inject_grid_flag defaultConfig true) 0 50
     (some 0) "Normal"
     (by norm_num [check_reliability, inject_grid_flag, defaultConfig])⟩

/-! ## Claim C7 -/

/-- C7 counterexample: the invalid update {battery_min_soc: 50,
battery_max_soc: 40} (min not below max) is not rejected:
`update_config` mutates the configuration, which afterwards holds
min_soc 50 above max_soc 40, and the prior configuration is no longer
in effect. -/
theorem invalid_config_update_counterexample :
    update_config defaultConfig
        { battery_min_soc := some 50, battery_max_soc := some 40 } =
      { carbon_cost := 0.02, battery_min_soc := 50, battery_max_soc := 40,
        grid_available := true } ∧
    update_config defaultConfig
        { battery_min_soc := some 50, battery_max_soc := some 40 } ≠
      defaultConfig := by
  refine ⟨rfl, ?_⟩
  intro h
  have hmin := congrArg Config.battery_min_soc h
  norm_num [update_config, defaultConfig] at hmin

/-- C7 amended: `update_config` performs no validation and never
rejects: every provided key is applied unconditionally and unspecified
keys retain their prior values. -/
theorem update_config_unconditional_merge
    (config : Config) (kwargs : ConfigUpdate) :
    (update_config config kwargs).carbon_cost =
      kwargs.carbon_cost.getD config.carbon_cost ∧
    (update_config config kwargs).battery_min_soc =
      kwargs.battery_min_soc.getD config.battery_min_soc ∧
    (update_config config kwargs).battery_max_soc =
      kwargs.battery_max_soc.getD config.battery_max_soc ∧
    (update_config config kwargs).grid_available =
      kwargs.grid_available.getD config.grid_available :=
  ⟨rfl, rfl, rfl, rfl⟩

/-! ## Claim C5 -/

/-- C5: the physical model's step contradicts the claimed SOC sign
convention.  At battery_soc 50 with the charging setpoint -1000 W
(negative = charge, which per the claim must not decrease SOC) the step
returns battery_soc 59/120 < 50: the code adds the setpoint to the
stored energy (so a positive, discharging, setpoint would raise it) and
divides the energy by 10 instead of rescaling it to percent. -/
theorem simulate_step_soc_sign_bug :
    (simulate_step initState 19 (-1000) 0 300).battery_soc = 59 / 120 ∧
    (59 / 120 : ℝ) < 50 ∧ (-1000 : ℝ) < 0 := by
  refine ⟨?_, by norm_num, by norm_num⟩
  simp only [simulate_step, initState]
  norm_num [min_def, max_def]

/-! ## Claim C8 -/

/-- C8 counterexample: take the realized state at hour 7, whose solar
output 3000·sin(13π/15) is positive, inject a 70 percent solar
reduction, and run the next cycle's step at the same hour: the realized
solar power equals the full pre-disturbance value rather than at most
30 percent of it, because `simulate_step` recomputes solar power from
the clock and discards the disturbed cached value. -/
theorem solar_disturbance_not_persistent_counterexample :
    ¬ ((simulate_step (inject_disturbance (simulate_step initState 7 0 0 300) 70 0)
          7 0 0 300).solar_power ≤
        30 / 100 * (simulate_step initState 7 0 0 300).solar_power) := by
  have h13 : Real.pi * (((7 : ℕ) : ℝ) + 6) / 15 = Real.pi * 13 / 15 := by
    norm_num
  have hsin : 0 < Real.sin (Real.pi * (((7 : ℕ) : ℝ) + 6) / 15) := by
    rw [h13]
    apply Real.sin_pos_of_pos_of_lt_pi
    · positivity
    · nlinarith [Real.pi_pos]
  have hsolar : solar_pattern 7 =
      3000 * Real.sin (Real.pi * (((7 : ℕ) : ℝ) + 6) / 15) := by
    unfold solar_pattern
    exact max_eq_right (by positivity)
  simp only [simulate_step]
  rw [hsolar]
  intro hle
  nlinarith [hsin]

/-- C8 amended: `inject_disturbance` scales the simulator's cached solar
power multiplicatively, but the effect does not persist into the next
cycle: `simulate_step` recomputes solar power purely from the hour of
day, so the realized solar power after a step is independent of the
cached (disturbed) value. -/
theorem solar_disturbance_scales_cache_only
    (s s' : PhysicalState) (solar_reduction load_increase : ℝ) (hour : ℕ)
    (battery_setpoint generator_setpoint step_size : ℝ) :
    (inject_disturbance s solar_reduction load_increase).solar_power =
      s.solar_power * (1 - solar_reduction / 100) ∧
    (simulate_step (inject_disturbance s solar_reduction load_increase) hour
        battery_setpoint generator_setpoint step_size).solar_power =
      (simulate_step s' hour battery_setpoint generator_setpoint
        step_size).solar_power :=
  ⟨rfl, rfl⟩

/-! ## Claim C9 -/

/-- C9 counterexample: two consecutive cycles realized at hour 19, the
first applying generator setpoint 1000 W and the second 0 W (zero
battery setpoint in both), record the carbon-emissions values 8/5 and
then 7/5: the recorded emissions quantity is an instantaneous per-cycle
value, not an accumulator, and it decreases between the cycles. -/
theorem emissions_not_monotone_counterexample :
    calculate_emissions (simulate_step initState 19 0 1000 300) (some 1000) =
      some (8 / 5) ∧
    calculate_emissions (simulate_step (simulate_step initState 19 0 1000 300)
        19 0 0 300) (some 0) = some (7 / 5) ∧
    ¬ ((8 / 5 : ℝ) ≤ 7 / 5) := by
  have harg : Real.pi * (((19 : ℕ) : ℝ) + 6) / 15 =
      2 * Real.pi - Real.pi / 3 := by
    push_cast
    ring
  have hsinneg : Real.sin (Real.pi * (((19 : ℕ) : ℝ) + 6) / 15) = -(√3 / 2) := by
    rw [harg, Real.sin_two_pi_sub, Real.sin_pi_div_three]
  have hsolar : solar_pattern 19 = 0 := by
    unfold solar_pattern
    rw [hsinneg]
    apply max_eq_left
    nlinarith [Real.sqrt_nonneg (3 : ℝ)]
  have hload : load_pattern 19 = 2800 := by
    unfold load_pattern
    norm_num [Real.exp_zero]
  refine ⟨?_, ?_, by norm_num⟩
  · simp only [calculate_emissions, simulate_step, hsolar, hload,
      Option.map_some']
    norm_num [max_def]
  · simp only [calculate_emissions, simulate_step, hsolar, hload,
      Option.map_some']
    norm_num [max_def]

/-- C9 amended: the monetary accumulator is monotonically
non-decreasing — every `simulate_step` with a non-negative generator
setpoint and step size adds a non-negative cost increment — whereas the
recorded carbon value is per-cycle, not accumulated, and can decrease
(see the counterexample). -/
theorem total_cost_monotone
    (s : PhysicalState) (hour : ℕ)
    (battery_setpoint generator_setpoint step_size : ℝ)
    (hg : 0 ≤ generator_setpoint) (hstep : 0 ≤ step_size) :
    s.total_cost ≤
      (simulate_step s hour battery_setpoint generator_setpoint
        step_size).total_cost := by
  simp only [simulate_step]
  have hprice : 0 ≤ price_pattern hour := by
    unfold price_pattern
    split_ifs <;> norm_num
  have hmax : 0 ≤ max 0 (load_pattern hour - solar_pattern hour -
      battery_setpoint - generator_setpoint) := le_max_left 0 _
  have hgen : 0 ≤ generator_setpoint * 0.25 / 0.35 :=
    div_nonneg (mul_nonneg hg (by norm_num)) (by norm_num)
  have hinc : 0 ≤ (max 0 (load_pattern hour - solar_pattern hour -
      battery_setpoint - generator_setpoint) * price_pattern hour +
      generator_setpoint * 0.25 / 0.35) * step_size / 3600 / 1000 :=
    div_nonneg (div_nonneg (mul_nonneg
      (add_nonneg (mul_nonneg hmax hprice) hgen) hstep) (by norm_num))
      (by norm_num)
  linarith

/-- Witness for C9 amended: the cost accumulator does not decrease over
a concrete step at hour 19 with zero setpoints. -/
theorem total_cost_monotone_witness :
    ((0 : ℝ) ≤ 0 ∧ (0 : ℝ) ≤ 300) ∧
    initState.total_cost ≤ (simulate_step initState 19 0 0 300).total_cost :=
  ⟨⟨le_refl 0, by norm_num⟩,
   total_cost_monotone initState 19 0 0 300 (le_refl 0) (by norm_num)⟩

end Microgrid
